import Mathlib

/-!
Shallow embedding of the AI_sidebar repository's entitlement-gating chat
proxy and its extension-side helpers, with theorems checking the
natural-language specification's claims against the code.

The repository ships two near-duplicate versions of the Netlify chat-proxy
function in `netlify/functions/chat-proxy.ts`; the first (charging inside
the top-level `handler`) is embedded here as `handlerV1`, the second
(charging inside `handleChatRequest`) as `handleChatRequest`.  Database
reads/writes and the upstream OpenAI call are external I/O; their outcomes
enter the embedding as explicit parameters, and applied ledger mutations
and the upstream call are recorded in an event trace.
-/

namespace AISidebar

/-- `plan_type` values of the `user_subscriptions` row
(`'free' | 'byok_license' | 'pro_subscription'` per SUPABASE_SETUP.sql). -/
inductive PlanType where
  | free
  | byok_license
  | pro_subscription
deriving DecidableEq, Repr

/-- The `user_subscriptions` row fields read and written by the proxy
handlers (`plan_type`, `credits_balance`, `subscription_status`,
`usage_count`, `last_reset_at`).  `last_reset_at` is in epoch
milliseconds. -/
structure UserSubscription where
  plan_type : PlanType
  credits_balance : Int
  subscription_status : String
  usage_count : Nat
  last_reset_at : Nat
deriving DecidableEq, Repr

/-- Observable ledger/upstream events of one request, in program order:
a successfully applied charge (credit decrement or usage increment), a
compensating rollback write, and the upstream completion call. -/
inductive Event where
  | charge
  | rollback
  | upstreamCall
deriving DecidableEq, Repr

/-- A role-tagged chat message. -/
structure Msg where
  role : String
  content : String
deriving DecidableEq, Repr

/-- Parsed JSON request body.  `messages = none` models a missing or
non-array `messages` field; the whole body being `none` (at the call
sites below) models a JSON parse failure. -/
structure ChatBody where
  messages : Option (List Msg)
  context : Option String
deriving DecidableEq, Repr

/-- Result of one proxied chat request: HTTP status, machine-readable
error `code` (when the handler sets one), the final entitlement row, the
event trace, the response `Content-Type`, and the SSE body on success. -/
structure HandlerResult where
  status : Nat
  code : Option String
  finalSub : UserSubscription
  trace : List Event
  contentType : String
  sseBody : Option String
deriving DecidableEq, Repr

/-- Lower-case hex digit, as produced by `JSON.stringify` in
`\u00XX` escapes. -/
def hexDigit (n : Nat) : Char :=
  if n < 10 then Char.ofNat (48 + n) else Char.ofNat (87 + n)

/-- Per-character JSON string escaping of `JSON.stringify`. -/
def jsonEscapeChar (c : Char) : List Char :=
  if c = '\"' then ['\\', '\"']
  else if c = '\\' then ['\\', '\\']
  else if c = '\x08' then ['\\', 'b']
  else if c = '\x09' then ['\\', 't']
  else if c = '\x0a' then ['\\', 'n']
  else if c = '\x0c' then ['\\', 'f']
  else if c = '\x0d' then ['\\', 'r']
  else if c.toNat < 32 then
    ['\\', 'u', '0', '0', hexDigit (c.toNat / 16), hexDigit (c.toNat % 16)]
  else [c]

/-- `JSON.stringify` of a string value. -/
def jsonStringify (s : String) : String :=
  ⟨'\"' :: (s.data.map jsonEscapeChar).flatten ++ ['\"']⟩

/-- One SSE event for a content fragment:
`data: ` + `JSON.stringify({ content })` + `\n\n`. -/
def sseEvent (content : String) : String :=
  "data: \x7b\"content\":" ++ jsonStringify content ++ "\x7d\n\n"

/-- The terminal SSE marker `data: [DONE]\n\n`. -/
def sseDone : String := "data: [DONE]\n\n"

/-- The `ReadableStream` pump loop shared by both proxy variants: for
each upstream chunk, `chunk.choices[0]?.delta?.content` (here an
`Option String`) is enqueued as an SSE event iff it is present and
non-empty (JS truthiness), then the final `[DONE]` marker is enqueued. -/
def streamLoop : List (Option String) → String → String
  | [], acc => acc ++ sseDone
  | none :: rest, acc => streamLoop rest acc
  | some c :: rest, acc =>
    if c = "" then streamLoop rest acc
    else streamLoop rest (acc ++ sseEvent c)

/-- The spec's wording of the success body (claim C8): one event per
non-empty upstream content delta, in arrival order, terminated by the
`[DONE]` event.  Stated independently of the code's pump loop so the two
can be compared. -/
def sseSpecBody (deltas : List (Option String)) : String :=
  ((deltas.filterMap id).filter (fun c => c ≠ "")).foldr
    (fun c r => sseEvent c ++ r) sseDone

/-- Continuation of `handleChatRequest` (second chat-proxy variant) after
the plan checks and the free-plan charge: parse the body (`orig` is the
row as loaded, `cur` the row after the charge, `tr` the applied events),
validate `messages`, call upstream, and on an upstream error restore
`credits_balance` for free-plan users (lines 337–427 of the source). -/
def chatAfterCharge (orig cur : UserSubscription) (tr : List Event)
    (body : Option ChatBody) (upstreamOk : Bool)
    (deltas : List (Option String)) : HandlerResult :=
  match body with
  | none =>
    { status := 400, code := none, finalSub := cur, trace := tr,
      contentType := "application/json", sseBody := none }
  | some b =>
    match b.messages with
    | none =>
      { status := 400, code := none, finalSub := cur, trace := tr,
        contentType := "application/json", sseBody := none }
    | some ms =>
      if ms.isEmpty then
        { status := 400, code := none, finalSub := cur, trace := tr,
          contentType := "application/json", sseBody := none }
      else if upstreamOk then
        { status := 200, code := none, finalSub := cur,
          trace := tr ++ [Event.upstreamCall],
          contentType := "text/event-stream",
          sseBody := some (streamLoop deltas "") }
      else if orig.plan_type = PlanType.free then
        { status := 500, code := none,
          finalSub := { cur with credits_balance := orig.credits_balance },
          trace := tr ++ [Event.upstreamCall, Event.rollback],
          contentType := "application/json", sseBody := none }
      else
        { status := 500, code := none, finalSub := cur,
          trace := tr ++ [Event.upstreamCall],
          contentType := "application/json", sseBody := none }

/-- `handleChatRequest` of the second chat-proxy variant: BYOK accounts
are denied `USE_OWN_KEY`; pro subscriptions require `subscription_status
= "active"` and are then forwarded with no ledger mutation; free accounts
require `credits_balance > 0` and have one credit decremented before the
body is parsed and the upstream call is made.  `decOk` is the outcome of
that decrement update: the source binds its `updateError`, logs it and
continues regardless (lines 326–334), so a failed write leaves the
stored row unchanged, records no charge, and still proceeds to the
upstream call. -/
def handleChatRequest (sub : UserSubscription) (body : Option ChatBody)
    (decOk : Bool) (upstreamOk : Bool) (deltas : List (Option String)) :
    HandlerResult :=
  match sub.plan_type with
  | PlanType.byok_license =>
    { status := 403, code := some "USE_OWN_KEY", finalSub := sub, trace := [],
      contentType := "application/json", sseBody := none }
  | PlanType.pro_subscription =>
    if sub.subscription_status = "active" then
      chatAfterCharge sub sub [] body upstreamOk deltas
    else
      { status := 403, code := some "SUBSCRIPTION_INACTIVE", finalSub := sub,
        trace := [], contentType := "application/json", sseBody := none }
  | PlanType.free =>
    if sub.credits_balance ≤ 0 then
      { status := 403, code := some "CREDITS_EXHAUSTED", finalSub := sub,
        trace := [], contentType := "application/json", sseBody := none }
    else if decOk then
      chatAfterCharge sub
        { sub with credits_balance := sub.credits_balance - 1 }
        [Event.charge] body upstreamOk deltas
    else
      chatAfterCharge sub sub [] body upstreamOk deltas

/-- Milliseconds per day, the divisor of the first variant's
`diffDays` computation. -/
def msPerDay : Nat := 1000 * 3600 * 24

/-- Modelled from the spec: the `increment_usage` database RPC, which is
not part of the repository's source (only its caller is).  Per §4.2 the
ledger operations are single atomic read-modify-write statements against
the stored row, so the increment acts on the current database value. -/
def increment_usage (row : UserSubscription) : UserSubscription :=
  { row with usage_count := row.usage_count + 1 }

/-- Modelled from the spec: the `deduct_credit` database RPC, which is
not part of the repository's source (only its caller is).  Per §4.2 it
atomically decrements `credits_balance` of the stored row. -/
def deduct_credit (row : UserSubscription) : UserSubscription :=
  { row with credits_balance := row.credits_balance - 1 }

/-- Continuation of the first chat-proxy variant after its limit
enforcement: parse the body, require a `messages` array (emptiness is
not checked in this variant), call upstream and stream; the outer catch
turns an upstream failure into a 500 with no rollback (lines 109–169). -/
def continueV1 (cur : UserSubscription) (tr : List Event)
    (body : Option ChatBody) (upstreamOk : Bool)
    (deltas : List (Option String)) : HandlerResult :=
  match body with
  | none =>
    { status := 400, code := none, finalSub := cur, trace := tr,
      contentType := "application/json", sseBody := none }
  | some b =>
    match b.messages with
    | none =>
      { status := 400, code := none, finalSub := cur, trace := tr,
        contentType := "application/json", sseBody := none }
    | some _ =>
      if upstreamOk then
        { status := 200, code := none, finalSub := cur,
          trace := tr ++ [Event.upstreamCall],
          contentType := "text/event-stream",
          sseBody := some (streamLoop deltas "") }
      else
        { status := 500, code := none, finalSub := cur,
          trace := tr ++ [Event.upstreamCall],
          contentType := "application/json", sseBody := none }

/-- The first chat-proxy variant's `handler`, from the subscription-row
load onward (auth and row fetch are external collaborators).  For
`pro_subscription` rows it resets `usage_count` and `last_reset_at` when
more than 7 days have elapsed, otherwise denies with 429 once
`usage_count >= 375`, then increments usage via the `increment_usage`
RPC (falling back to a direct update with the stale loaded count when
the RPC errors).  Every other plan value takes the free-tier path:
deny with 402 when `credits_balance <= 0`, otherwise deduct one credit
via the `deduct_credit` RPC (direct-update fallback; a failed fallback
is a 500 and stops the request).  `now` is in epoch milliseconds;
`rpcOk` and `fallbackOk` are the outcomes of the RPC and of the
direct-update fallback. -/
def handlerV1 (sub : UserSubscription) (now : Nat) (rpcOk fallbackOk : Bool)
    (body : Option ChatBody) (upstreamOk : Bool)
    (deltas : List (Option String)) : HandlerResult :=
  if sub.plan_type = PlanType.pro_subscription then
    if now - sub.last_reset_at > 7 * msPerDay then
      let reset := { sub with usage_count := 0, last_reset_at := now }
      let charged :=
        if rpcOk then increment_usage reset
        else { reset with usage_count := sub.usage_count + 1 }
      continueV1 charged [Event.charge] body upstreamOk deltas
    else if sub.usage_count ≥ 375 then
      { status := 429, code := some "WEEKLY_LIMIT_REACHED", finalSub := sub,
        trace := [], contentType := "application/json", sseBody := none }
    else
      let charged :=
        if rpcOk then increment_usage sub
        else { sub with usage_count := sub.usage_count + 1 }
      continueV1 charged [Event.charge] body upstreamOk deltas
  else
    if sub.credits_balance ≤ 0 then
      { status := 402, code := some "CREDITS_EXHAUSTED", finalSub := sub,
        trace := [], contentType := "application/json", sseBody := none }
    else if rpcOk then
      continueV1 (deduct_credit sub) [Event.charge] body upstreamOk deltas
    else if fallbackOk then
      continueV1 { sub with credits_balance := sub.credits_balance - 1 }
        [Event.charge] body upstreamOk deltas
    else
      { status := 500, code := none, finalSub := sub, trace := [],
        contentType := "application/json", sseBody := none }

/-- JS `String.prototype.slice(0, n)`: the first `n` characters. -/
def strTake (s : String) (n : Nat) : String := ⟨s.data.take n⟩

/-- The system prompt constant of `lib/ai.ts`. -/
def SYSTEM_PROMPT : String :=
  "You are ContextFlow, an AI browser assistant. You help users understand and interact with web pages.\n\nWhen PAGE_CONTEXT is provided, use it to answer the user\x27s questions accurately and concisely.\n- Be helpful and direct\n- Use markdown formatting when appropriate\n- If the answer isn\x27t in the context, say so honestly\n- Keep responses focused and relevant"

/-- The two context kinds of `lib/ai.ts` and the content script. -/
inductive ContextType where
  | page
  | selection
deriving DecidableEq, Repr

/-- `buildMessagesWithContext` of `lib/ai.ts`: synthesizes the system
message, embedding selection context truncated to its first 8,000
characters or full-page context truncated to its first 12,000
characters; an absent or empty (JS-falsy) context yields no context
section. -/
def buildMessagesWithContext (messages : List Msg)
    (pageContext : Option String) (contextType : ContextType) : List Msg :=
  let contextSection :=
    match pageContext with
    | none => ""
    | some ctx =>
      if ctx = "" then ""
      else
        match contextType with
        | ContextType.selection =>
          "\n\n--- USER SELECTED TEXT ---\n" ++ strTake ctx 8000
            ++ "\n--- END SELECTED TEXT ---\n\nFocus your answer on the selected text above."
        | ContextType.page =>
          "\n\n--- PAGE_CONTEXT ---\n" ++ strTake ctx 12000
            ++ "\n--- END PAGE_CONTEXT ---"
  { role := "system", content := SYSTEM_PROMPT ++ contextSection } :: messages

/-- JS `String.prototype.trim()`: strip leading and trailing
whitespace. -/
def jsTrim (s : String) : String :=
  ⟨((s.data.dropWhile Char.isWhitespace).reverse.dropWhile
      Char.isWhitespace).reverse⟩

/-- The article object produced by a successful Readability parse
(external library); `none` at the call sites models a parse that threw
or returned `null`. -/
structure Article where
  textContent : String
  title : String
  excerpt : Option String
  byline : Option String
deriving DecidableEq, Repr

/-- Return shape of `extractWithReadability` in
`contents/context-parser.ts`. -/
structure ReadabilityResult where
  text : String
  title : String
  excerpt : Option String
  byline : Option String
  success : Bool
deriving DecidableEq, Repr

/-- `extractWithReadability`: succeeds iff the parse produced an article
whose `textContent` is truthy and longer than 200 characters; then the
text is the trimmed `textContent` and the title falls back to
`document.title` when the article title is empty. -/
def extractWithReadability (docTitle : String) (article : Option Article) :
    ReadabilityResult :=
  match article with
  | some a =>
    if a.textContent ≠ "" then
      if a.textContent.length > 200 then
        { text := jsTrim a.textContent,
          title := if a.title = "" then docTitle else a.title,
          excerpt := a.excerpt, byline := a.byline, success := true }
      else
        { text := "", title := "", excerpt := none, byline := none,
          success := false }
    else
      { text := "", title := "", excerpt := none, byline := none,
        success := false }
  | none =>
    { text := "", title := "", excerpt := none, byline := none,
      success := false }

/-- `extractSelection`: the trimmed `window.getSelection()` text paired
with `document.title`, or `none` when there is no selection or it trims
to the empty string. -/
def extractSelection (docTitle : String) (selection : Option String) :
    Option (String × String) :=
  match selection with
  | none => none
  | some s =>
    if jsTrim s ≠ "" then some (jsTrim s, docTitle) else none

/-- `extractFallback`: the cleaned `document.body` innerText (the DOM
noise removal is external; its output enters as `cleanedInnerText`),
trimmed, paired with `document.title`. -/
def extractFallback (docTitle : String) (cleanedInnerText : String) :
    String × String :=
  (jsTrim cleanedInnerText, docTitle)

/-- Response shape of the content script's `getPageText` handler. -/
structure PageTextResponse where
  success : Bool
  text : Option String
  title : Option String
  url : Option String
  excerpt : Option String
  byline : Option String
  contextType : Option ContextType
  isReadabilityParsed : Option Bool
  error : Option String
deriving DecidableEq, Repr

/-- Priorities 2 and 3 of the `getPageText` handler: the Readability
result when it succeeded (its falsy `excerpt`/`byline` mapped to
`undefined`), otherwise the cleaned-innerText fallback. -/
def pageExtractResponse (url docTitle : String) (article : Option Article)
    (cleanedInnerText : String) : PageTextResponse :=
  let r := extractWithReadability docTitle article
  if r.success then
    { success := true, text := some r.text, title := some r.title,
      url := some url,
      excerpt := match r.excerpt with
        | none => none
        | some e => if e = "" then none else some e,
      byline := match r.byline with
        | none => none
        | some b => if b = "" then none else some b,
      contextType := some ContextType.page,
      isReadabilityParsed := some true, error := none }
  else
    let f := extractFallback docTitle cleanedInnerText
    { success := true, text := some f.1, title := some f.2,
      url := some url, excerpt := none, byline := none,
      contextType := some ContextType.page,
      isReadabilityParsed := some false, error := none }

/-- The content script's `chrome.runtime.onMessage` listener for
`getPageText` (lines 158–218): a selection whose trimmed text is longer
than 10 characters is answered as selection context; otherwise the
handler falls through to Readability and then to the cleaned-innerText
fallback. -/
def onMessageGetPageText (url docTitle : String) (selection : Option String)
    (article : Option Article) (cleanedInnerText : String) : PageTextResponse :=
  match extractSelection docTitle selection with
  | some st =>
    if st.1.length > 10 then
      { success := true, text := some st.1, title := some st.2,
        url := some url, excerpt := none, byline := none,
        contextType := some ContextType.selection,
        isReadabilityParsed := some false, error := none }
    else
      pageExtractResponse url docTitle article cleanedInnerText
  | none => pageExtractResponse url docTitle article cleanedInnerText

/-- `LICENSE_CONFIG.TRIAL_LIMIT` of `lib/storage.ts`. -/
def TRIAL_LIMIT : Nat := 5

/-- `TrialInfo` of `lib/storage.ts`.  `remaining` is an integer because
the source computes it with JS number arithmetic before clamping. -/
structure TrialInfo where
  usageCount : Nat
  hasLicense : Bool
  remaining : Int
  isTrialExpired : Bool
deriving DecidableEq, Repr

/-- `getTrialInfo` of `lib/storage.ts`, as a function of the stored
trial usage count and license flag (absent keys default to `0` and
`false` at the storage reads). -/
def getTrialInfo (usageCount : Nat) (hasLicense : Bool) : TrialInfo :=
  { usageCount := usageCount, hasLicense := hasLicense,
    remaining := max 0 ((TRIAL_LIMIT : Int) - (usageCount : Int)),
    isTrialExpired := (!hasLicense) && decide (usageCount ≥ TRIAL_LIMIT) }

/-- `checkAccessPermission` of `lib/ai.ts`: licensed users are always
allowed; trial users are allowed while `remaining > 0`. -/
def checkAccessPermission (usageCount : Nat) (hasLicense : Bool) :
    Bool × TrialInfo :=
  let trialInfo := getTrialInfo usageCount hasLicense
  if trialInfo.hasLicense then (true, trialInfo)
  else if trialInfo.remaining > 0 then (true, trialInfo)
  else (false, trialInfo)

/-- A minimal valid request body: one user message, no context field. -/
def goodBody : ChatBody :=
  { messages := some [{ role := "user", content := "hi" }], context := none }

/-- A `pro_subscription` row with the given usage count, freshly reset. -/
def proRow (uc : Nat) : UserSubscription :=
  { plan_type := PlanType.pro_subscription, credits_balance := 0,
    subscription_status := "active", usage_count := uc, last_reset_at := 0 }

/-- A `free` row with the given credit balance. -/
def freeRow (cb : Int) : UserSubscription :=
  { plan_type := PlanType.free, credits_balance := cb,
    subscription_status := "active", usage_count := 0, last_reset_at := 0 }

/-- C2: a free-plan account with `credits_balance = 3` whose request is
allowed (charging the balance down to 2) but whose upstream call fails
gets HTTP 500 with the balance restored to 3; the trace shows the
charge, the upstream call, then the compensating rollback.  The last
conjunct shows the charge indeed lowers the balance to 2 when the
upstream call succeeds. -/
theorem c2_rollback_restores_balance :
    (handleChatRequest (freeRow 3) (some goodBody) true false []).status = 500
    ∧ (handleChatRequest (freeRow 3) (some goodBody) true false []).finalSub.credits_balance = 3
    ∧ (handleChatRequest (freeRow 3) (some goodBody) true false []).trace
        = [Event.charge, Event.upstreamCall, Event.rollback]
    ∧ (handleChatRequest (freeRow 3) (some goodBody) true true []).finalSub.credits_balance = 2 := by
  decide

/-- C3: contrary to the claim, neither chat-proxy variant rolls the
charge back when the request body fails to parse as JSON: a free-plan
account with `credits_balance = 3` gets HTTP 400 with the balance left
at 2 and no rollback event in either variant. -/
theorem c3_bad_json_leaves_charge_applied :
    (handleChatRequest (freeRow 3) none true true []).status = 400
    ∧ (handleChatRequest (freeRow 3) none true true []).finalSub.credits_balance = 2
    ∧ Event.rollback ∉ (handleChatRequest (freeRow 3) none true true []).trace
    ∧ (handlerV1 (freeRow 3) 0 true true none true []).status = 400
    ∧ (handlerV1 (freeRow 3) 0 true true none true []).finalSub.credits_balance = 2
    ∧ Event.rollback ∉ (handlerV1 (freeRow 3) 0 true true none true []).trace := by
  decide

/-- C4: in `handleChatRequest`, a BYOK account is always answered 403
`USE_OWN_KEY` with the entitlement row untouched and no ledger event,
whatever the other fields, the body, and the upstream outcome. -/
theorem c4_byok_short_circuit (cb : Int) (ss : String) (uc lr : Nat)
    (body : Option ChatBody) (decOk upOk : Bool)
    (deltas : List (Option String)) :
    handleChatRequest
        { plan_type := PlanType.byok_license, credits_balance := cb,
          subscription_status := ss, usage_count := uc, last_reset_at := lr }
        body decOk upOk deltas
      = { status := 403, code := some "USE_OWN_KEY",
          finalSub :=
            { plan_type := PlanType.byok_license, credits_balance := cb,
              subscription_status := ss, usage_count := uc,
              last_reset_at := lr },
          trace := [], contentType := "application/json",
          sseBody := none } := rfl

/-- C5: with the 375-per-week limit of the first proxy variant, a pro
request at `usage_count = 374` inside the period is allowed and charged
to 375 (upstream called), while at `usage_count = 375` it is denied 429
`WEEKLY_LIMIT_REACHED` with no upstream call and no mutation. -/
theorem c5_weekly_limit_boundary :
    (handlerV1 (proRow 374) 0 true true (some goodBody) true []).status = 200
    ∧ (handlerV1 (proRow 374) 0 true true (some goodBody) true []).finalSub.usage_count = 375
    ∧ Event.upstreamCall ∈ (handlerV1 (proRow 374) 0 true true (some goodBody) true []).trace
    ∧ (handlerV1 (proRow 375) 0 true true (some goodBody) true []).status = 429
    ∧ (handlerV1 (proRow 375) 0 true true (some goodBody) true []).code
        = some "WEEKLY_LIMIT_REACHED"
    ∧ Event.upstreamCall ∉ (handlerV1 (proRow 375) 0 true true (some goodBody) true []).trace
    ∧ (handlerV1 (proRow 375) 0 true true (some goodBody) true []).finalSub = proRow 375 := by
  decide

/-- C6: a pro row with `usage_count = 200` whose last reset lies 8 days
in the past is reset (count 0, `last_reset_at := now`) and then charged,
so the request is allowed with `usage_count = 1`; an immediately
following request (1 ms later) does not reset again and is allowed with
`usage_count = 2`. -/
theorem c6_period_reset_idempotence :
    (handlerV1 (proRow 200) (8 * msPerDay) true true (some goodBody) true []).status = 200
    ∧ (handlerV1 (proRow 200) (8 * msPerDay) true true (some goodBody) true []).finalSub.usage_count = 1
    ∧ (handlerV1 (proRow 200) (8 * msPerDay) true true (some goodBody) true []).finalSub.last_reset_at
        = 8 * msPerDay
    ∧ (handlerV1
        (handlerV1 (proRow 200) (8 * msPerDay) true true (some goodBody) true []).finalSub
        (8 * msPerDay + 1) true true (some goodBody) true []).status = 200
    ∧ (handlerV1
        (handlerV1 (proRow 200) (8 * msPerDay) true true (some goodBody) true []).finalSub
        (8 * msPerDay + 1) true true (some goodBody) true []).finalSub.usage_count = 2
    ∧ (handlerV1
        (handlerV1 (proRow 200) (8 * msPerDay) true true (some goodBody) true []).finalSub
        (8 * msPerDay + 1) true true (some goodBody) true []).finalSub.last_reset_at
        = 8 * msPerDay := by
  decide

/-- The trace appended by `continueV1`: nothing (body rejected) or the
upstream call. -/
theorem continueV1_trace (cur : UserSubscription) (tr : List Event)
    (body : Option ChatBody) (upOk : Bool) (deltas : List (Option String)) :
    (continueV1 cur tr body upOk deltas).trace = tr
    ∨ (continueV1 cur tr body upOk deltas).trace = tr ++ [Event.upstreamCall] := by
  unfold continueV1
  rcases body with _ | ⟨ms?, ctx⟩
  · exact Or.inl rfl
  rcases ms? with _ | ms
  · exact Or.inl rfl
  cases upOk
  · exact Or.inr rfl
  · exact Or.inr rfl

/-- The trace appended by `chatAfterCharge`: nothing, the upstream call,
or (for free-plan rows only) the upstream call followed by a rollback. -/
theorem chatAfterCharge_trace (orig cur : UserSubscription) (tr : List Event)
    (body : Option ChatBody) (upOk : Bool) (deltas : List (Option String)) :
    (chatAfterCharge orig cur tr body upOk deltas).trace = tr
    ∨ (chatAfterCharge orig cur tr body upOk deltas).trace = tr ++ [Event.upstreamCall]
    ∨ (orig.plan_type = PlanType.free
        ∧ (chatAfterCharge orig cur tr body upOk deltas).trace
            = tr ++ [Event.upstreamCall, Event.rollback]) := by
  unfold chatAfterCharge
  rcases body with _ | ⟨ms?, ctx⟩
  · exact Or.inl rfl
  rcases ms? with _ | ms
  · exact Or.inl rfl
  cases hE : ms.isEmpty
  · cases upOk
    · by_cases hp : orig.plan_type = PlanType.free
      · simp [hE, hp]
      · simp [hE, hp]
    · simp [hE]
  · simp [hE]

/-- C1 counterexample: an active pro-subscription request through
`handleChatRequest` reaches the upstream call with no ledger mutation at
all, so the claim that every path to the upstream call is preceded by a
successful charge is false on the code. -/
theorem c1_counterexample :
    Event.upstreamCall ∈ (handleChatRequest (proRow 200) (some goodBody) true true []).trace
    ∧ Event.charge ∉ (handleChatRequest (proRow 200) (some goodBody) true true []).trace := by
  decide

/-- C1 (amended): in `handleChatRequest`, the free-plan credit
decrement is issued before any upstream call but its failure is logged
and swallowed: when the decrement write succeeds, every execution path
that reaches the upstream call from a free-plan account has the charge
as its first recorded event; when it fails, no charge is ever recorded
yet the request is still forwarded upstream.  Pro-subscription requests
reach the upstream call with no ledger mutation at all.  In the first
proxy variant, with the ledger writes succeeding, every path reaching
the upstream call has applied its charge first. -/
theorem c1_charge_before_upstream_amended :
    (∀ (sub : UserSubscription) (body : Option ChatBody) (upOk : Bool)
        (deltas : List (Option String)),
      Event.upstreamCall ∈ (handleChatRequest sub body true upOk deltas).trace →
      (sub.plan_type = PlanType.free →
        (handleChatRequest sub body true upOk deltas).trace.head? = some Event.charge)
      ∧ (sub.plan_type = PlanType.pro_subscription →
        Event.charge ∉ (handleChatRequest sub body true upOk deltas).trace
        ∧ Event.rollback ∉ (handleChatRequest sub body true upOk deltas).trace))
    ∧ (∀ (sub : UserSubscription) (body : Option ChatBody) (upOk : Bool)
        (deltas : List (Option String)),
      Event.charge ∉ (handleChatRequest sub body false upOk deltas).trace)
    ∧ Event.upstreamCall
        ∈ (handleChatRequest (freeRow 3) (some goodBody) false true []).trace
    ∧ (∀ (sub : UserSubscription) (now : Nat) (body : Option ChatBody)
        (upOk : Bool) (deltas : List (Option String)),
      Event.upstreamCall ∈ (handlerV1 sub now true true body upOk deltas).trace →
      (handlerV1 sub now true true body upOk deltas).trace.head? = some Event.charge) := by
  refine ⟨?_, ?_, by decide, ?_⟩
  · intro sub body upOk deltas hmem
    obtain ⟨pt, cb, ss, uc, lr⟩ := sub
    cases pt
    · -- free
      refine ⟨fun _ => ?_, fun h => (nomatch h)⟩
      by_cases hcb : cb ≤ 0
      · simp [handleChatRequest, hcb] at hmem
      · have hred :
            handleChatRequest ⟨PlanType.free, cb, ss, uc, lr⟩ body true upOk deltas
              = chatAfterCharge ⟨PlanType.free, cb, ss, uc, lr⟩
                  ⟨PlanType.free, cb - 1, ss, uc, lr⟩ [Event.charge]
                  body upOk deltas := by
          simp [handleChatRequest, hcb]
        rw [hred]
        rcases chatAfterCharge_trace ⟨PlanType.free, cb, ss, uc, lr⟩
            ⟨PlanType.free, cb - 1, ss, uc, lr⟩ [Event.charge] body upOk deltas
          with h | h | ⟨_, h⟩ <;> rw [h] <;> rfl
    · -- byok
      simp [handleChatRequest] at hmem
    · -- pro
      refine ⟨fun h => (nomatch h), fun _ => ?_⟩
      by_cases hss : ss = "active"
      · have hred :
            handleChatRequest ⟨PlanType.pro_subscription, cb, ss, uc, lr⟩ body true upOk deltas
              = chatAfterCharge ⟨PlanType.pro_subscription, cb, ss, uc, lr⟩
                  ⟨PlanType.pro_subscription, cb, ss, uc, lr⟩ [] body upOk deltas := by
          simp [handleChatRequest, hss]
        rw [hred]
        rcases chatAfterCharge_trace ⟨PlanType.pro_subscription, cb, ss, uc, lr⟩
            ⟨PlanType.pro_subscription, cb, ss, uc, lr⟩ [] body upOk deltas
          with h | h | ⟨hfree, _⟩
        · rw [h]; exact ⟨by simp, by simp⟩
        · rw [h]; exact ⟨by simp, by simp⟩
        · cases hfree
      · simp [handleChatRequest, hss]
  · intro sub body upOk deltas
    obtain ⟨pt, cb, ss, uc, lr⟩ := sub
    cases pt
    · -- free: failed decrement records no charge
      by_cases hcb : cb ≤ 0
      · simp [handleChatRequest, hcb]
      · have hred :
            handleChatRequest ⟨PlanType.free, cb, ss, uc, lr⟩ body false upOk deltas
              = chatAfterCharge ⟨PlanType.free, cb, ss, uc, lr⟩
                  ⟨PlanType.free, cb, ss, uc, lr⟩ [] body upOk deltas := by
          simp [handleChatRequest, hcb]
        rw [hred]
        rcases chatAfterCharge_trace ⟨PlanType.free, cb, ss, uc, lr⟩
            ⟨PlanType.free, cb, ss, uc, lr⟩ [] body upOk deltas
          with h | h | ⟨_, h⟩ <;> rw [h] <;> simp
    · -- byok
      simp [handleChatRequest]
    · -- pro
      by_cases hss : ss = "active"
      · have hred :
            handleChatRequest ⟨PlanType.pro_subscription, cb, ss, uc, lr⟩ body false upOk deltas
              = chatAfterCharge ⟨PlanType.pro_subscription, cb, ss, uc, lr⟩
                  ⟨PlanType.pro_subscription, cb, ss, uc, lr⟩ [] body upOk deltas := by
          simp [handleChatRequest, hss]
        rw [hred]
        rcases chatAfterCharge_trace ⟨PlanType.pro_subscription, cb, ss, uc, lr⟩
            ⟨PlanType.pro_subscription, cb, ss, uc, lr⟩ [] body upOk deltas
          with h | h | ⟨_, h⟩ <;> rw [h] <;> simp
      · simp [handleChatRequest, hss]
  · intro sub now body upOk deltas hmem
    obtain ⟨pt, cb, ss, uc, lr⟩ := sub
    by_cases hpt : pt = PlanType.pro_subscription
    · subst hpt
      by_cases hd : now - lr > 7 * msPerDay
      · have hred :
            handlerV1 ⟨PlanType.pro_subscription, cb, ss, uc, lr⟩ now true true body upOk deltas
              = continueV1 ⟨PlanType.pro_subscription, cb, ss, 0 + 1, now⟩
                  [Event.charge] body upOk deltas := by
          simp [handlerV1, hd, increment_usage]
        rw [hred]
        rcases continueV1_trace ⟨PlanType.pro_subscription, cb, ss, 0 + 1, now⟩
            [Event.charge] body upOk deltas with h | h <;> rw [h] <;> rfl
      · by_cases hlim : uc ≥ 375
        · simp [handlerV1, hd, hlim] at hmem
        · have hred :
              handlerV1 ⟨PlanType.pro_subscription, cb, ss, uc, lr⟩ now true true body upOk deltas
                = continueV1 ⟨PlanType.pro_subscription, cb, ss, uc + 1, lr⟩
                    [Event.charge] body upOk deltas := by
            simp [handlerV1, hd, hlim, increment_usage]
          rw [hred]
          rcases continueV1_trace ⟨PlanType.pro_subscription, cb, ss, uc + 1, lr⟩
              [Event.charge] body upOk deltas with h | h <;> rw [h] <;> rfl
    · by_cases hcb : cb ≤ 0
      · simp [handlerV1, hpt, hcb] at hmem
      · have hred :
            handlerV1 ⟨pt, cb, ss, uc, lr⟩ now true true body upOk deltas
              = continueV1 ⟨pt, cb - 1, ss, uc, lr⟩ [Event.charge] body upOk deltas := by
          simp [handlerV1, hpt, hcb, deduct_credit]
        rw [hred]
        rcases continueV1_trace ⟨pt, cb - 1, ss, uc, lr⟩
            [Event.charge] body upOk deltas with h | h <;> rw [h] <;> rfl

/-- C1 amended, instantiated: a free-plan request with five credits and
a valid body reaches the upstream call with the charge as its first
recorded event. -/
theorem c1_amended_witness :
    (handleChatRequest (freeRow 5) (some goodBody) true true []).trace.head? = some Event.charge :=
  (c1_charge_before_upstream_amended.1 (freeRow 5) (some goodBody) true []
    (by decide)).1 rfl

/-- C7: the synthesized system message embeds a 20,000-character page
context truncated to exactly its first 12,000 characters, and a
9,000-character selection truncated to exactly its first 8,000
characters. -/
theorem c7_context_truncation :
    (∀ (ms : List Msg) (ctx : String), ctx.length = 20000 →
      (buildMessagesWithContext ms (some ctx) ContextType.page).head?
        = some (Msg.mk "system" (SYSTEM_PROMPT
              ++ ("\n\n--- PAGE_CONTEXT ---\n" ++ strTake ctx 12000
                  ++ "\n--- END PAGE_CONTEXT ---")))
      ∧ (strTake ctx 12000).data = ctx.data.take 12000
      ∧ (strTake ctx 12000).length = 12000)
    ∧ (∀ (ms : List Msg) (sel : String), sel.length = 9000 →
      (buildMessagesWithContext ms (some sel) ContextType.selection).head?
        = some (Msg.mk "system" (SYSTEM_PROMPT
              ++ ("\n\n--- USER SELECTED TEXT ---\n" ++ strTake sel 8000
                  ++ "\n--- END SELECTED TEXT ---\n\nFocus your answer on the selected text above.")))
      ∧ (strTake sel 8000).data = sel.data.take 8000
      ∧ (strTake sel 8000).length = 8000) := by
  constructor
  · intro ms ctx hlen
    have hne : ctx ≠ "" := by
      intro h
      rw [h] at hlen
      exact absurd hlen (by decide)
    refine ⟨by simp [buildMessagesWithContext, hne], rfl, ?_⟩
    have hd : ctx.data.length = 20000 := hlen
    show (ctx.data.take 12000).length = 12000
    rw [List.length_take]
    omega
  · intro ms sel hlen
    have hne : sel ≠ "" := by
      intro h
      rw [h] at hlen
      exact absurd hlen (by decide)
    refine ⟨by simp [buildMessagesWithContext, hne], rfl, ?_⟩
    have hd : sel.data.length = 9000 := hlen
    show (sel.data.take 8000).length = 8000
    rw [List.length_take]
    omega

/-- C7 instantiated at a 20,000-character page context and a
9,000-character selection. -/
theorem c7_truncation_witness :
    (strTake ⟨List.replicate 20000 'a'⟩ 12000).length = 12000
    ∧ (strTake ⟨List.replicate 9000 'b'⟩ 8000).length = 8000 :=
  ⟨(c7_context_truncation.1 [] ⟨List.replicate 20000 'a'⟩
      (by show (List.replicate 20000 'a').length = 20000
          rw [List.length_replicate])).2.2,
   (c7_context_truncation.2 [] ⟨List.replicate 9000 'b'⟩
      (by show (List.replicate 9000 'b').length = 9000
          rw [List.length_replicate])).2.2⟩

/-- The stream pump loop produces the accumulator followed by the
spec-shaped body: one event per present non-empty delta, in order,
terminated by the `[DONE]` marker. -/
theorem streamLoop_eq (deltas : List (Option String)) (acc : String) :
    streamLoop deltas acc = acc ++ sseSpecBody deltas := by
  induction deltas generalizing acc with
  | nil => simp [streamLoop, sseSpecBody]
  | cons d rest ih =>
    cases d with
    | none => simp [streamLoop, sseSpecBody, ih, List.filterMap_cons]
    | some c =>
      by_cases hc : c = ""
      · simp [streamLoop, hc, sseSpecBody, ih, List.filterMap_cons]
      · simp only [streamLoop, hc, if_false, ih, sseSpecBody,
          List.filterMap_cons, List.filter_cons]
        simp [hc, String.append_assoc]

/-- `chatAfterCharge` answers 200 only on the streaming path, with the
SSE content type and the pump loop's body. -/
theorem chatAfterCharge_status200 (orig cur : UserSubscription)
    (tr : List Event) (body : Option ChatBody) (upOk : Bool)
    (deltas : List (Option String))
    (h : (chatAfterCharge orig cur tr body upOk deltas).status = 200) :
    (chatAfterCharge orig cur tr body upOk deltas).contentType = "text/event-stream"
    ∧ (chatAfterCharge orig cur tr body upOk deltas).sseBody
        = some (streamLoop deltas "") := by
  unfold chatAfterCharge at h ⊢
  rcases body with _ | ⟨ms?, ctx⟩
  · simp at h
  rcases ms? with _ | ms
  · simp at h
  cases hE : ms.isEmpty
  · cases upOk
    · by_cases hp : orig.plan_type = PlanType.free
      · simp [hE, hp] at h
      · simp [hE, hp] at h
    · simp [hE]
  · simp [hE] at h

/-- C8: whenever `handleChatRequest` answers 200, the response has
content type `text/event-stream` and its body is exactly one
`data: {"content": ...}` event per non-empty upstream content delta, in
arrival order, terminated by `data: [DONE]`, each followed by two
newlines. -/
theorem c8_sse_success_framing (sub : UserSubscription)
    (body : Option ChatBody) (decOk upOk : Bool)
    (deltas : List (Option String))
    (h : (handleChatRequest sub body decOk upOk deltas).status = 200) :
    (handleChatRequest sub body decOk upOk deltas).contentType = "text/event-stream"
    ∧ (handleChatRequest sub body decOk upOk deltas).sseBody
        = some (sseSpecBody deltas) := by
  have hloop : streamLoop deltas "" = sseSpecBody deltas := by
    rw [streamLoop_eq]
    rfl
  obtain ⟨pt, cb, ss, uc, lr⟩ := sub
  cases pt
  · -- free
    by_cases hcb : cb ≤ 0
    · simp [handleChatRequest, hcb] at h
    · cases decOk
      · have hred :
            handleChatRequest ⟨PlanType.free, cb, ss, uc, lr⟩ body false upOk deltas
              = chatAfterCharge ⟨PlanType.free, cb, ss, uc, lr⟩
                  ⟨PlanType.free, cb, ss, uc, lr⟩ [] body upOk deltas := by
          simp [handleChatRequest, hcb]
        rw [hred] at h ⊢
        have hc := chatAfterCharge_status200 _ _ _ _ _ _ h
        exact ⟨hc.1, by rw [hc.2, hloop]⟩
      · have hred :
            handleChatRequest ⟨PlanType.free, cb, ss, uc, lr⟩ body true upOk deltas
              = chatAfterCharge ⟨PlanType.free, cb, ss, uc, lr⟩
                  ⟨PlanType.free, cb - 1, ss, uc, lr⟩ [Event.charge]
                  body upOk deltas := by
          simp [handleChatRequest, hcb]
        rw [hred] at h ⊢
        have hc := chatAfterCharge_status200 _ _ _ _ _ _ h
        exact ⟨hc.1, by rw [hc.2, hloop]⟩
  · -- byok
    simp [handleChatRequest] at h
  · -- pro
    by_cases hss : ss = "active"
    · have hred :
          handleChatRequest ⟨PlanType.pro_subscription, cb, ss, uc, lr⟩ body decOk upOk deltas
            = chatAfterCharge ⟨PlanType.pro_subscription, cb, ss, uc, lr⟩
                ⟨PlanType.pro_subscription, cb, ss, uc, lr⟩ [] body upOk deltas := by
        simp [handleChatRequest, hss]
      rw [hred] at h ⊢
      have hc := chatAfterCharge_status200 _ _ _ _ _ _ h
      exact ⟨hc.1, by rw [hc.2, hloop]⟩
    · simp [handleChatRequest, hss] at h

/-- C8 instantiated: a successful free-plan request whose upstream
stream delivers `"Hello"`, an absent delta, an empty delta and
`" there"` produces the SSE body with exactly the two non-empty
fragments and the terminal marker. -/
theorem c8_framing_witness :
    (handleChatRequest (freeRow 5) (some goodBody) true true
        [some "Hello", none, some "", some " there"]).contentType
      = "text/event-stream"
    ∧ (handleChatRequest (freeRow 5) (some goodBody) true true
        [some "Hello", none, some "", some " there"]).sseBody
      = some (sseSpecBody [some "Hello", none, some "", some " there"]) :=
  c8_sse_success_framing (freeRow 5) (some goodBody) true true
    [some "Hello", none, some "", some " there"] (by decide)

/-- The priorities 2–3 path always answers page context. -/
theorem pageExtractResponse_contextType (url docTitle : String)
    (article : Option Article) (cleaned : String) :
    (pageExtractResponse url docTitle article cleaned).contextType
      = some ContextType.page := by
  unfold pageExtractResponse
  cases hs : (extractWithReadability docTitle article).success <;> simp [hs]

/-- C9: the `getPageText` listener answers selection context exactly
when the window selection trims to more than 10 characters; a selection
trimming to 10 or fewer characters (including a non-empty one) falls
back to full-page extraction, which uses the Readability result when the
parse succeeded and otherwise the trimmed cleaned body innerText. -/
theorem c9_selection_threshold (url docTitle : String)
    (selection : Option String) (article : Option Article) (cleaned : String) :
    ((onMessageGetPageText url docTitle selection article cleaned).contextType
        = some ContextType.selection
      ↔ ∃ s, selection = some s ∧ jsTrim s ≠ "" ∧ (jsTrim s).length > 10)
    ∧ (∀ s, selection = some s → (jsTrim s).length ≤ 10 →
        onMessageGetPageText url docTitle selection article cleaned
          = pageExtractResponse url docTitle article cleaned)
    ∧ ((extractWithReadability docTitle article).success = true →
        (pageExtractResponse url docTitle article cleaned).text
            = some (extractWithReadability docTitle article).text
        ∧ (pageExtractResponse url docTitle article cleaned).isReadabilityParsed
            = some true)
    ∧ ((extractWithReadability docTitle article).success = false →
        (pageExtractResponse url docTitle article cleaned).text
            = some (jsTrim cleaned)
        ∧ (pageExtractResponse url docTitle article cleaned).isReadabilityParsed
            = some false) := by
  refine ⟨?_, ?_, ?_, ?_⟩
  · rcases selection with _ | s
    · simp [onMessageGetPageText, extractSelection, pageExtractResponse_contextType]
    · by_cases ht : jsTrim s = ""
      · simp [onMessageGetPageText, extractSelection, ht,
          pageExtractResponse_contextType]
      · by_cases hlen : (jsTrim s).length > 10
        · simp only [onMessageGetPageText, extractSelection, ht, ne_eq,
            not_false_iff, if_true, hlen]
          constructor
          · intro _
            exact ⟨s, rfl, ht, hlen⟩
          · intro _
            trivial
        · simp only [onMessageGetPageText, extractSelection, ht, ne_eq,
            not_false_iff, if_true, hlen, if_false,
            pageExtractResponse_contextType]
          constructor
          · intro hcontra
            exact absurd hcontra (by simp)
          · rintro ⟨s2, hs2, _, hlen2⟩
            cases Option.some.inj hs2
            exact absurd hlen2 hlen
  · intro s hsel hle
    subst hsel
    by_cases ht : jsTrim s = ""
    · simp [onMessageGetPageText, extractSelection, ht]
    · have hnot : ¬ (jsTrim s).length > 10 := by omega
      simp [onMessageGetPageText, extractSelection, ht, hnot]
  · intro hs
    unfold pageExtractResponse
    simp [hs]
  · intro hs
    unfold pageExtractResponse
    simp [hs, extractFallback]

/-- C9 instantiated: a selection trimming to 5 characters is ignored in
favour of full-page extraction, and with no Readability article the
response carries the trimmed cleaned body text. -/
theorem c9_threshold_witness :
    onMessageGetPageText "u" "t" (some "  tiny!  ") none "  body text  "
      = pageExtractResponse "u" "t" none "  body text  "
    ∧ (pageExtractResponse "u" "t" none "  body text  ").text
        = some (jsTrim "  body text  ")
    ∧ (pageExtractResponse "u" "t" none "  body text  ").isReadabilityParsed
        = some false :=
  ⟨(c9_selection_threshold "u" "t" (some "  tiny!  ") none "  body text  ").2.1
      "  tiny!  " rfl (by decide),
   ((c9_selection_threshold "u" "t" (some "  tiny!  ") none "  body text  ").2.2.2
      rfl).1,
   ((c9_selection_threshold "u" "t" (some "  tiny!  ") none "  body text  ").2.2.2
      rfl).2⟩

/-- C10: `getTrialInfo` clamps `remaining` at zero (never negative, even
past the limit), reports `isTrialExpired` exactly for unlicensed
accounts at or past `TRIAL_LIMIT`, and `checkAccessPermission` allows
exactly licensed accounts or those with `remaining > 0`. -/
theorem c10_trial_gate (usageCount : Nat) (hasLicense : Bool) :
    (getTrialInfo usageCount hasLicense).remaining
        = max 0 ((TRIAL_LIMIT : Int) - (usageCount : Int))
    ∧ 0 ≤ (getTrialInfo usageCount hasLicense).remaining
    ∧ ((getTrialInfo usageCount hasLicense).isTrialExpired = true
        ↔ hasLicense = false ∧ TRIAL_LIMIT ≤ usageCount)
    ∧ ((checkAccessPermission usageCount hasLicense).1 = true
        ↔ hasLicense = true
          ∨ 0 < (getTrialInfo usageCount hasLicense).remaining) := by
  refine ⟨rfl, le_max_left 0 _, ?_, ?_⟩
  · cases hasLicense <;> simp [getTrialInfo]
  · cases hasLicense
    · by_cases h0 : (0 : Int) < max 0 ((TRIAL_LIMIT : Int) - (usageCount : Int))
      · simp [checkAccessPermission, getTrialInfo, h0]
      · simp [checkAccessPermission, getTrialInfo, h0]
    · simp [checkAccessPermission, getTrialInfo]

end AISidebar
